import Mathlib

/-!
Verification of the certification-practice backend
(`src/backend/app`: `models/schemas.py`, `services/ai_agent.py`,
`services/question_randomizer.py`, `services/azure_speech.py`,
`routers/assessments.py`, `routers/sessions.py`).

The Python code is shallowly embedded: pydantic models become structures,
methods become pure functions, the mutable per-session state of the
`QuestionFlowAgent` becomes explicit state passing, raised exceptions become
`Except.error`.  Wall-clock fields (`created_at`, `last_activity`, ...) are
omitted: no verified property reads them.  Python `int` values that stay
non-negative are modelled as `Nat`.
-/

/-! ## Data model (src/backend/app/models/schemas.py) -/

/-- `QuestionType` enum (schemas.py lines 11-18). -/
inductive QuestionType where
  | multiple_choice
  | multiple_select
  | true_false
  | drag_drop
  | case_study
  | hotspot
deriving DecidableEq

/-- `DifficultyLevel` enum (schemas.py lines 21-25): the only values are
beginner, intermediate and advanced. -/
inductive DifficultyLevel where
  | beginner
  | intermediate
  | advanced
deriving DecidableEq

/-- `Answer` model (schemas.py lines 28-33). -/
structure Answer where
  id : String
  text : String
  is_correct : Bool := false
  explanation : Option String := none
deriving DecidableEq

/-- `Question` model (schemas.py lines 36-46).  Note the field names: the
difficulty field is called `difficulty` (not `difficulty_level`), the tag
field is called `topics` (not `tags`), and there is no `category` field. -/
structure Question where
  id : String
  text : String
  question_type : QuestionType
  answers : List Answer
  correct_answer_ids : List String
  explanation : Option String := none
  difficulty : Option DifficultyLevel := none
  topics : List String := []
  reference_links : List String := []
deriving DecidableEq

/-- `PracticeAssessment` model (schemas.py lines 59-69); `created_at` and
`updated_at` timestamps omitted. -/
structure PracticeAssessment where
  id : String
  certification_code : String
  title : String
  description : Option String := none
  questions : List Question
  total_questions : Nat
deriving DecidableEq

/-- `UserSession` model (schemas.py lines 81-91); `start_time` and
`last_activity` timestamps omitted. -/
structure UserSession where
  session_id : String
  assessment_id : String
  current_question_index : Nat := 0
  answered_questions : List String := []
  score : Nat := 0
  is_completed : Bool := false
  auto_progression_enabled : Bool := true
deriving DecidableEq

/-- `UserAnswer` model (schemas.py lines 94-101); `answered_at` omitted. -/
structure UserAnswer where
  session_id : String
  question_id : String
  selected_answer_ids : List String
  is_correct : Bool
  time_spent_seconds : Option Nat := none
deriving DecidableEq

/-! ## Python string ordering

Python `sorted` on a list of `str` sorts ascending by code-point
lexicographic order, which is exactly the lexicographic order on the
underlying `List Char`.  Since equal strings are identical, the sorted
output is uniquely determined by the order, so any sorting algorithm is a
faithful model of CPython `sorted`. -/

/-- The comparison CPython uses on `str`: code-point lexicographic order,
i.e. the lexicographic order on the character list. -/
def pyStrLe (a b : String) : Prop :=
  a.data ≤ b.data

instance : DecidableRel pyStrLe := fun a b =>
  inferInstanceAs (Decidable (a.data ≤ b.data))

instance : IsTotal String pyStrLe :=
  ⟨fun a b => le_total a.data b.data⟩

instance : IsTrans String pyStrLe :=
  ⟨fun _ _ _ h₁ h₂ => le_trans h₁ h₂⟩

instance : IsAntisymm String pyStrLe := by
  constructor
  intro a b h₁ h₂
  cases a
  cases b
  exact congrArg String.mk (le_antisymm h₁ h₂)

/-- Python `sorted` on a list of strings. -/
def pySorted (l : List String) : List String :=
  List.insertionSort pyStrLe l

/-! ## Question flow agent (src/backend/app/services/ai_agent.py)

The agent keeps three dicts keyed by session id (`sessions`,
`assessments`, `user_answers`).  Every claim is about a single session, so
the state is modelled as the looked-up values for one session: the
`UserSession`, its `PracticeAssessment`, and its `UserAnswer` history.
The lookup-failure branches (unknown session / assessment id) raise or
return `None` before any mutation and are not modelled. -/

/-- The per-session part of the `QuestionFlowAgent` state: the entry of
`self.sessions` and the entry of `self.user_answers` for one session id. -/
structure AgentState where
  session : UserSession
  user_answers : List UserAnswer
deriving DecidableEq

/-- `QuestionFlowAgent._check_answer_correctness` (ai_agent.py lines
366-372): sort both id lists and compare them. -/
def check_answer_correctness (question : Question)
    (selected_answer_ids : List String) : Bool :=
  let selected_sorted := pySorted selected_answer_ids
  let correct_sorted := pySorted question.correct_answer_ids
  selected_sorted == correct_sorted

/-- `QuestionFlowAgent._calculate_auto_advance_delay` (ai_agent.py lines
426-454).  `if question.explanation:` is false for `None` and for the
empty string; `int(max(3, length / (200 * 5)))` equals `max 3 (length / 1000)`
with floor division, which `Nat` division provides. -/
def calculate_auto_advance_delay (question : Question) (is_correct : Bool) :
    Nat :=
  let base_delay : Nat := 3
  let base_delay := base_delay +
    (match question.explanation with
     | some e => if e.length = 0 then 0 else max 3 (e.length / (200 * 5))
     | none => 0)
  let base_delay := if is_correct then base_delay else base_delay + 2
  let base_delay :=
    if question.question_type ∈ [QuestionType.case_study, QuestionType.drag_drop]
    then base_delay + 3 else base_delay
  min base_delay 15

/-- The next-action directive built by `_determine_next_action`
(ai_agent.py lines 374-424); the unreachable assessment-missing error arm
is omitted because the assessment is passed in. -/
inductive NextAction where
  | complete_assessment
  | auto_advance (delay_seconds : Nat)
  | manual_advance
deriving DecidableEq

/-- `QuestionFlowAgent._determine_next_action` (ai_agent.py lines 374-424).
The Python test `index >= len(questions) - 1` over `int` is rendered as
`index + 1 >= len(questions)`, which agrees with it for every length
including 0 (where the Python right side is -1). -/
def determine_next_action (assessment : PracticeAssessment)
    (session : UserSession) (question : Question) (is_correct : Bool) :
    NextAction :=
  if session.current_question_index + 1 ≥ assessment.questions.length then
    .complete_assessment
  else if session.auto_progression_enabled then
    .auto_advance (calculate_auto_advance_delay question is_correct)
  else
    .manual_advance

/-- The fields of the dict returned by `submit_answer` (ai_agent.py lines
192-199) that the claims mention; the `progress` snapshot is omitted. -/
structure SubmitResult where
  is_correct : Bool
  correct_answer_ids : List String
  explanation : Option String
  reference_links : List String
  next_action : NextAction
deriving DecidableEq

/-- `QuestionFlowAgent.submit_answer` (ai_agent.py lines 124-206).  The
question is located by id anywhere in the assessment; an unknown id raises
`ValueError` before any state change.  The Azure-OpenAI explanation
enhancement is inactive when no OpenAI service is configured, so
`explanation` is the question explanation.  The answer record is appended
unconditionally; `answered_questions` and `score` are only touched when the
question id is not already in `answered_questions`. -/
def submit_answer (assessment : PracticeAssessment) (st : AgentState)
    (question_id : String) (selected_answer_ids : List String)
    (time_spent_seconds : Option Nat) :
    Except String (SubmitResult × AgentState) :=
  match assessment.questions.find? (fun q => q.id == question_id) with
  | none => .error (String.append (r"Question not found: ") question_id)
  | some question =>
    let is_correct := check_answer_correctness question selected_answer_ids
    let user_answer : UserAnswer :=
      { session_id := st.session.session_id
        question_id := question_id
        selected_answer_ids := selected_answer_ids
        is_correct := is_correct
        time_spent_seconds := time_spent_seconds }
    let user_answers := st.user_answers ++ [user_answer]
    let session :=
      if question_id ∈ st.session.answered_questions then st.session
      else
        { st.session with
          answered_questions := st.session.answered_questions ++ [question_id]
          score := st.session.score + (if is_correct then 1 else 0) }
    let next_action := determine_next_action assessment session question is_correct
    .ok ({ is_correct := is_correct
           correct_answer_ids := question.correct_answer_ids
           explanation := question.explanation
           reference_links := question.reference_links
           next_action := next_action },
         { session := session, user_answers := user_answers })

/-- `QuestionFlowAgent.get_current_question` (ai_agent.py lines 87-122):
if the index has reached the question count the session is marked
completed and no question is returned; otherwise the question at the index
is returned and the state is unchanged (apart from `last_activity`). -/
def get_current_question (assessment : PracticeAssessment) (st : AgentState) :
    Option Question × AgentState :=
  if st.session.current_question_index ≥ assessment.questions.length then
    (none, { st with session := { st.session with is_completed := true } })
  else
    (assessment.questions[st.session.current_question_index]?, st)

/-- `QuestionFlowAgent.advance_to_next_question` (ai_agent.py lines
208-247): the index is incremented unconditionally; if the new index has
reached the question count the session is marked completed and no question
is returned. -/
def advance_to_next_question (assessment : PracticeAssessment)
    (st : AgentState) : Option Question × AgentState :=
  let session :=
    { st.session with
      current_question_index := st.session.current_question_index + 1 }
  if session.current_question_index ≥ assessment.questions.length then
    (none, { st with session := { session with is_completed := true } })
  else
    (assessment.questions[session.current_question_index]?,
     { st with session := session })

/-- One call against the agent for a fixed session. -/
inductive AgentOp where
  | get_current
  | advance
  | submit (question_id : String) (selected_answer_ids : List String)
      (time_spent_seconds : Option Nat)
deriving DecidableEq

/-- State effect of one agent call; a `submit` whose question id is unknown
raises, leaving the state unchanged. -/
def apply_op (assessment : PracticeAssessment) (st : AgentState) :
    AgentOp → AgentState
  | .get_current => (get_current_question assessment st).2
  | .advance => (advance_to_next_question assessment st).2
  | .submit qid sel t =>
    match submit_answer assessment st qid sel t with
    | .ok (_, st') => st'
    | .error _ => st

/-- Run a sequence of agent calls for one session. -/
def run_ops (assessment : PracticeAssessment) (st : AgentState)
    (ops : List AgentOp) : AgentState :=
  ops.foldl (apply_op assessment) st

/-- Recognizer for the advance operation. -/
def is_advance : AgentOp → Bool
  | .advance => true
  | _ => false

/-! ## Question randomizer (src/backend/app/services/question_randomizer.py)

`_select_random_questions` (lines 131-182) filters the pool with
`q.difficulty_level.value.lower() == difficulty` and
`_shuffle_answer_options` (lines 184-209) reads
`question.difficulty_level`, `question.category` and `question.tags`.
The pydantic `Question` model (schemas.py) has none of those attributes
(the fields are `difficulty`, `topics`, and no category), so the first
such access on any question raises `AttributeError`.  The attribute access
is therefore embedded as `Except.error`; `randomize_assessment_for_session`
catches every exception (lines 95-97) and falls back to returning the
original assessment. -/

/-- The `AttributeError` message raised by `question.difficulty_level`. -/
def attribute_error_difficulty_level : String :=
  "AttributeError: Question object has no attribute difficulty_level"

/-- `QuestionRandomizer._select_random_questions` (lines 131-182).  When the
pool is not larger than `count` it is returned whole (line 138-139).
Otherwise the easy-bucket list comprehension evaluates
`q.difficulty_level` on the first of the (nonempty) remaining questions
and raises `AttributeError`. -/
def select_random_questions (available_questions : List Question)
    (count : Nat) : Except String (List Question) :=
  if available_questions.length ≤ count then
    .ok available_questions
  else
    match available_questions with
    | [] => .ok []
    | _ :: _ => .error attribute_error_difficulty_level

/-- `QuestionRandomizer._shuffle_answer_options` (lines 184-209).  For each
question it builds `Question(..., difficulty_level=question.difficulty_level,
category=question.category, tags=question.tags)`; evaluating
`question.difficulty_level` on the first question raises `AttributeError`. -/
def shuffle_answer_options (questions : List Question) :
    Except String (List Question) :=
  match questions with
  | [] => .ok []
  | _ :: _ => .error attribute_error_difficulty_level

/-- `QuestionRandomizer._get_available_questions` (lines 99-129), with the
used-id set of `self.session_questions[session_id]` passed explicitly.
`len(used)/len(all) < 0.2` under float division is exactly
`5 * len(used) < len(all)`; an empty pool makes the usage ratio 0.
Returns the available pool and the possibly cleared used set. -/
def get_available_questions (all_questions : List Question)
    (used_questions : List String) : List Question × List String :=
  if all_questions.length = 0 ∨ 5 * used_questions.length < all_questions.length
  then
    (all_questions, used_questions)
  else
    let available_questions :=
      all_questions.filter (fun q => ¬ q.id ∈ used_questions)
    if available_questions.length < 30 then (all_questions, [])
    else (available_questions, used_questions)

/-- Python `f"{x}"` applied to an `Optional[str]`: `None` prints as the
four-letter string. -/
def format_optional (o : Option String) : String :=
  match o with
  | some s => s
  | none => "None"

/-- The `PracticeAssessment` built at lines 80-90 of
question_randomizer.py from the selected questions. -/
def mk_randomized_assessment (assessment : PracticeAssessment)
    (session_id : String) (selected_questions : List Question) :
    PracticeAssessment :=
  { id := assessment.id ++ (r"_session_") ++ session_id
    certification_code := assessment.certification_code
    title := assessment.title
    description :=
      some ((r"Randomized practice session - ") ++
        format_optional assessment.description)
    questions := selected_questions
    total_questions := selected_questions.length }

/-- `QuestionRandomizer.randomize_assessment_for_session` (lines 31-97),
with the session bookkeeping passed explicitly (fresh bookkeeping is the
empty used list).  Any exception inside the try block makes the function
return the original assessment unchanged (lines 95-97). -/
def randomize_assessment_for_session (assessment : PracticeAssessment)
    (session_id : String) (used_questions : List String)
    (questions_per_session : Nat) (shuffle_answers : Bool) :
    PracticeAssessment :=
  let (available_questions, _used) :=
    get_available_questions assessment.questions used_questions
  match select_random_questions available_questions questions_per_session with
  | .error _ => assessment
  | .ok selected_questions =>
    if shuffle_answers then
      match shuffle_answer_options selected_questions with
      | .error _ => assessment
      | .ok shuffled => mk_randomized_assessment assessment session_id shuffled
    else
      mk_randomized_assessment assessment session_id selected_questions

/-! ## Audio cache (src/backend/app/services/azure_speech.py) -/

/-- `AzureSpeechService._generate_cache_key` (lines 543-564) feeds
`f"{text}_{voice_name}_{speech_rate}_{speech_pitch}"` to `hashlib.md5`.
This is that pre-hash content string. -/
def generate_cache_key_content (text : String) (voice_name : Option String)
    (speech_rate : Option String) (speech_pitch : Option String) : String :=
  text ++ (r"_") ++ format_optional voice_name ++ (r"_") ++
    format_optional speech_rate ++ (r"_") ++ format_optional speech_pitch

/-- `AzureSpeechService._generate_cache_key` (lines 543-564), parametrized
by the hex digest function (`md5` is a fixed pure function of the input
bytes). -/
def generate_cache_key (md5_hexdigest : String → String) (text : String)
    (voice_name : Option String) (speech_rate : Option String)
    (speech_pitch : Option String) : String :=
  md5_hexdigest
    (generate_cache_key_content text voice_name speech_rate speech_pitch)

/-- One cached `.mp3` file as `_cleanup_cache_if_needed` sees it: its
name, `st_size`, and `st_mtime`. -/
structure CacheFile where
  name : String
  size : Nat
  mtime : Nat
deriving DecidableEq

/-- Total stored size of the cache directory (azure_speech.py lines
608-612). -/
def total_cache_size (files : List CacheFile) : Nat :=
  (files.map CacheFile.size).sum

/-- Oldest-modified-first comparison used by `cache_files.sort(key=mtime)`. -/
def mtime_le (a b : CacheFile) : Prop :=
  a.mtime ≤ b.mtime

instance : DecidableRel mtime_le := fun a b =>
  inferInstanceAs (Decidable (a.mtime ≤ b.mtime))

instance : IsTotal CacheFile mtime_le :=
  ⟨fun a b => Nat.le_total a.mtime b.mtime⟩

instance : IsTrans CacheFile mtime_le :=
  ⟨fun _ _ _ h₁ h₂ => Nat.le_trans h₁ h₂⟩

/-- `cache_files.sort(key=lambda f: f.stat().st_mtime)` (line 625): the
list of cache files in oldest-modified-first order. -/
def sort_by_mtime (files : List CacheFile) : List CacheFile :=
  List.insertionSort mtime_le files

/-- The deletion loop of `_cleanup_cache_if_needed` (lines 627-634): walk
the mtime-sorted files, stop as soon as
`total_size <= max_size_bytes * 0.8`, otherwise delete the head and
subtract its size.  The float comparison `total <= 0.8 * max` is exact for
the byte magnitudes involved and is rendered as `5 * total ≤ 4 * max`. -/
def cleanup_loop (max_size_bytes : Nat) :
    List CacheFile → Nat → List CacheFile
  | [], _ => []
  | f :: rest, total_size =>
    if 5 * total_size ≤ 4 * max_size_bytes then f :: rest
    else cleanup_loop max_size_bytes rest (total_size - f.size)

/-- `AzureSpeechService._cleanup_cache_if_needed` (lines 604-636): compute
the total size; only when it exceeds `max_size_bytes` sort by mtime and
run the deletion loop. -/
def cleanup_cache_if_needed (max_size_bytes : Nat)
    (files : List CacheFile) : List CacheFile :=
  let total_size := total_cache_size files
  if total_size > max_size_bytes then
    cleanup_loop max_size_bytes (sort_by_mtime files) total_size
  else
    files

/-! ## Generation tracker (src/backend/app/routers/assessments.py) -/

/-- `ScrapingStatus` model (schemas.py lines 152-158);
`progress_percentage` only ever takes the values 0, 10, 50, 100 here and
is modelled as `Nat`; `estimated_completion_time` omitted. -/
structure ScrapingStatus where
  status : String
  progress_percentage : Nat
  questions_scraped : Nat
  errors : List String
deriving DecidableEq

/-- The module-level mutable state of the router that
`generate_practice_assessment` touches: the `scraping_status` dict (as an
association list in insertion order, matching a Python dict) and the list
of certification codes handed to `background_tasks.add_task`. -/
structure GenTrackerState where
  scraping_status : List (String × ScrapingStatus)
  background_jobs : List String
deriving DecidableEq

/-- Python `scraping_status.get(code)` / `code in scraping_status`. -/
def lookup_status (m : List (String × ScrapingStatus)) (code : String) :
    Option ScrapingStatus :=
  (m.find? (fun p => p.1 == code)).map (fun p => p.2)

/-- Python dict assignment `scraping_status[code] = st`: overwrite the
existing entry in place, or append a new one. -/
def set_status (m : List (String × ScrapingStatus)) (code : String)
    (st : ScrapingStatus) : List (String × ScrapingStatus) :=
  if (m.find? (fun p => p.1 == code)).isSome then
    m.map (fun p => if p.1 == code then (p.1, st) else p)
  else
    m ++ [(code, st)]

/-- Outcome of one call to the generate endpoint.  `started` corresponds to
the 200 response announcing a new background task, `already_in_progress`
to the early return with the current status, `not_found` to the 404. -/
inductive GenerateOutcome where
  | not_found
  | already_in_progress (status : ScrapingStatus)
  | started
deriving DecidableEq

/-- The status string literal used by the router. -/
def in_progress_str : String := "in_progress"

/-- The fresh entry installed at lines 118-124 of assessments.py. -/
def fresh_in_progress_entry : ScrapingStatus :=
  { status := in_progress_str
    progress_percentage := 0
    questions_scraped := 0
    errors := [] }

/-- `generate_practice_assessment` (assessments.py lines 90-149), the
begin-generation operation.  The FastAPI handler runs with no `await`
between the status check and the status write, so on the single-threaded
event loop the check-then-set is atomic and the endpoint is a sequential
state transition.  `valid_codes` stands for the keys of
`CERTIFICATION_EXAMS`. -/
def generate_practice_assessment_route (valid_codes : List String)
    (st : GenTrackerState) (certification_code : String) :
    GenerateOutcome × GenTrackerState :=
  if ¬ certification_code ∈ valid_codes then
    (.not_found, st)
  else
    let start :=
      (GenerateOutcome.started,
       { scraping_status :=
           set_status st.scraping_status certification_code
             fresh_in_progress_entry
         background_jobs := st.background_jobs ++ [certification_code] })
    match lookup_status st.scraping_status certification_code with
    | some current_status =>
      if current_status.status = in_progress_str then
        (.already_in_progress current_status, st)
      else
        start
    | none => start

/-! ## Supporting lemmas -/

/-- Sorting is a permutation of the input. -/
theorem pySorted_perm (l : List String) : (pySorted l).Perm l :=
  List.perm_insertionSort pyStrLe l

/-- The sorted list is sorted for the string order. -/
theorem pySorted_sorted (l : List String) : List.Sorted pyStrLe (pySorted l) :=
  List.sorted_insertionSort pyStrLe l

/-- Two lists of strings have the same sorted form exactly when they are
permutations of each other (equal as multisets). -/
theorem pySorted_eq_iff_perm (l l' : List String) :
    pySorted l = pySorted l' ↔ l.Perm l' := by
  constructor
  · intro h
    exact ((pySorted_perm l).symm.trans (h ▸ pySorted_perm l')).symm.symm
  · intro h
    exact List.eq_of_perm_of_sorted
      (((pySorted_perm l).trans h).trans (pySorted_perm l').symm)
      (pySorted_sorted l) (pySorted_sorted l')

/-- Correctness check characterization: the sorted-list comparison accepts
exactly the permutations (multiset equality) of the correct id list. -/
theorem check_answer_correctness_iff (question : Question)
    (sel : List String) :
    check_answer_correctness question sel = true ↔
      sel.Perm question.correct_answer_ids := by
  unfold check_answer_correctness
  rw [beq_iff_eq]
  exact pySorted_eq_iff_perm sel question.correct_answer_ids

/-! ## C1 -/

/-- C1 (corrected).  Counterexample to the claim as stated: grading is NOT
set equality.  Submitting the id a1 twice against the single correct id a1
has equal id sets on both sides, yet `_check_answer_correctness` grades it
incorrect, because duplicated selections survive `sorted`. -/
theorem C1_counterexample :
    (([r"a1", r"a1"] : List String).toFinset =
      ([r"a1"] : List String).toFinset) ∧
    check_answer_correctness
      { id := r"q1"
        text := r""
        question_type := QuestionType.multiple_choice
        answers := [{ id := r"a1", text := r"" }]
        correct_answer_ids := [r"a1"] }
      [r"a1", r"a1"] = false := by
  decide

/-- C1 (amended): `submit_answer` computes `is_correct` by comparing the
two sorted id lists, i.e. by multiset equality.  The result is
order-independent (any permutation of the submitted ids grades alike), and
a submission is graded correct exactly when its multiset of ids equals the
multiset `correct_answer_ids`; it is not duplicate-independent. -/
theorem C1_grading_is_multiset_equality :
    ∀ (question : Question) (sel sel' : List String),
      (check_answer_correctness question sel = true ↔
        sel.Perm question.correct_answer_ids) ∧
      (sel.Perm sel' →
        check_answer_correctness question sel =
          check_answer_correctness question sel') := by
  intro question sel sel'
  refine ⟨check_answer_correctness_iff question sel, fun h => ?_⟩
  unfold check_answer_correctness
  rw [(pySorted_eq_iff_perm sel sel').mpr h]

/-- C1 witness: the theorem applied at a concrete question and a concrete
permuted pair of submissions. -/
theorem C1_grading_is_multiset_equality_witness :
    check_answer_correctness
      { id := r"q1"
        text := r""
        question_type := QuestionType.multiple_select
        answers := [{ id := r"a1", text := r"" }, { id := r"a2", text := r"" }]
        correct_answer_ids := [r"a1", r"a2"] }
      [r"a2", r"a1"] =
    check_answer_correctness
      { id := r"q1"
        text := r""
        question_type := QuestionType.multiple_select
        answers := [{ id := r"a1", text := r"" }, { id := r"a2", text := r"" }]
        correct_answer_ids := [r"a1", r"a2"] }
      [r"a1", r"a2"] :=
  (C1_grading_is_multiset_equality _ [r"a2", r"a1"] [r"a1", r"a2"]).2
    (by decide)

/-! ## C2 -/

/-- Index effect of a single agent call: `get_current_question` and
`submit_answer` never change `current_question_index`;
`advance_to_next_question` always adds exactly 1, completed or not. -/
theorem apply_op_index (assessment : PracticeAssessment) (st : AgentState)
    (op : AgentOp) :
    (apply_op assessment st op).session.current_question_index =
      st.session.current_question_index + (if is_advance op then 1 else 0) := by
  cases op with
  | get_current =>
    simp only [apply_op, get_current_question, is_advance]
    split <;> simp
  | advance =>
    simp only [apply_op, advance_to_next_question, is_advance]
    split <;> simp
  | submit qid sel t =>
    simp only [apply_op, submit_answer, is_advance]
    cases h : assessment.questions.find? (fun q => q.id == qid) with
    | none => simp
    | some question =>
      simp only []
      split <;> simp

/-- C2 (corrected): over any sequence of `get_current_question`,
`submit_answer` and `advance_to_next_question` calls,
`current_question_index` is monotonically non-decreasing; precisely, the
final index is the initial index plus the number of advance calls.  It is
therefore NOT bounded by the question count: advancing on a completed
session still increments it. -/
theorem C2_index_monotone :
    ∀ (assessment : PracticeAssessment) (st : AgentState)
      (ops : List AgentOp),
      (run_ops assessment st ops).session.current_question_index =
        st.session.current_question_index + ops.countP is_advance ∧
      st.session.current_question_index ≤
        (run_ops assessment st ops).session.current_question_index := by
  intro assessment st ops
  have key : ∀ (l : List AgentOp) (s : AgentState),
      (run_ops assessment s l).session.current_question_index =
        s.session.current_question_index + l.countP is_advance := by
    intro l
    induction l with
    | nil => intro s; simp [run_ops]
    | cons op rest ih =>
      intro s
      have h1 : run_ops assessment s (op :: rest) =
          run_ops assessment (apply_op assessment s op) rest := rfl
      rw [h1, ih, apply_op_index]
      rw [List.countP_cons]
      by_cases h : is_advance op = true <;> (simp [h]; try omega)
  refine ⟨key ops st, ?_⟩
  rw [key ops st]
  exact Nat.le_add_right _ _

/-- C2 counterexample: on a one-question assessment, two advance calls
push the index to 2, strictly above the question count 1 — the claimed
bound `index ≤ len(questions)` is violated, and the second advance (made
on an already completed session) did not leave the index unchanged. -/
theorem C2_counterexample :
    (run_ops
      { id := r"a"
        certification_code := r"AZ-900"
        title := r"t"
        questions := [{ id := r"q1"
                        text := r""
                        question_type := QuestionType.multiple_choice
                        answers := []
                        correct_answer_ids := [] }]
        total_questions := 1 }
      { session := { session_id := r"s", assessment_id := r"a" }
        user_answers := [] }
      [AgentOp.advance, AgentOp.advance]).session.current_question_index = 2 ∧
    ¬ (2 : Nat) ≤ 1 ∧
    ({ id := r"a"
       certification_code := r"AZ-900"
       title := r"t"
       questions := [{ id := r"q1"
                       text := r""
                       question_type := QuestionType.multiple_choice
                       answers := []
                       correct_answer_ids := [] }]
       total_questions := 1 } : PracticeAssessment).questions.length = 1 := by
  decide

/-! ## C3 -/

/-- One call to the submit-answer endpoint for a fixed session. -/
structure Submission where
  question_id : String
  selected_answer_ids : List String
  time_spent_seconds : Option Nat := none
deriving DecidableEq

/-- The agent operation corresponding to a submission. -/
def submit_op (s : Submission) : AgentOp :=
  .submit s.question_id s.selected_answer_ids s.time_spent_seconds

/-- Run a sequence of submissions against one session. -/
def submit_many (assessment : PracticeAssessment) (st : AgentState)
    (subs : List Submission) : AgentState :=
  subs.foldl (fun st s => apply_op assessment st (submit_op s)) st

/-- The question of the assessment with the given id, as `submit_answer`
locates it. -/
def found_question (assessment : PracticeAssessment) (q : String) :
    Option Question :=
  assessment.questions.find? (fun qq => qq.id == q)

/-- The first submission in a sequence that targets the question id. -/
def first_submission (subs : List Submission) (q : String) :
    Option Submission :=
  subs.find? (fun s => s.question_id == q)

/-- Whether the first submission targeting the id was graded correct. -/
def first_submission_correct (assessment : PracticeAssessment)
    (subs : List Submission) (q : String) : Bool :=
  match first_submission subs q, found_question assessment q with
  | some s, some question =>
    check_answer_correctness question s.selected_answer_ids
  | _, _ => false

/-- State effect of a submission whose question id is found. -/
theorem apply_op_submit_found (assessment : PracticeAssessment)
    (st : AgentState) (s : Submission) (question : Question)
    (hq : found_question assessment s.question_id = some question) :
    apply_op assessment st (submit_op s) =
      { session :=
          if s.question_id ∈ st.session.answered_questions then st.session
          else
            { st.session with
              answered_questions :=
                st.session.answered_questions ++ [s.question_id]
              score := st.session.score +
                (if check_answer_correctness question s.selected_answer_ids
                 then 1 else 0) }
        user_answers := st.user_answers ++
          [{ session_id := st.session.session_id
             question_id := s.question_id
             selected_answer_ids := s.selected_answer_ids
             is_correct :=
               check_answer_correctness question s.selected_answer_ids
             time_spent_seconds := s.time_spent_seconds }] } := by
  unfold found_question at hq
  simp [apply_op, submit_op, submit_answer, hq]

/-- C3 (confirmed): starting from a fresh session, after any sequence of
submissions whose question ids exist in the assessment, the answered-ids
list is duplicate-free and holds exactly the submitted ids (each entered at
most once), the score equals the number of distinct answered ids whose
FIRST submission was graded correct (so each id can contribute at most
once, and only via its first submission), and the answer history has one
record per submission. -/
theorem C3_resubmission_guard :
    ∀ (assessment : PracticeAssessment) (st0 : AgentState)
      (subs : List Submission),
      st0.session.answered_questions = [] →
      st0.session.score = 0 →
      st0.user_answers = [] →
      (∀ s ∈ subs, (found_question assessment s.question_id).isSome) →
      (submit_many assessment st0 subs).session.answered_questions.Nodup ∧
      (∀ q, q ∈ (submit_many assessment st0 subs).session.answered_questions ↔
        q ∈ subs.map Submission.question_id) ∧
      (submit_many assessment st0 subs).session.score =
        ((submit_many assessment st0 subs).session.answered_questions.filter
          (first_submission_correct assessment subs)).length ∧
      (submit_many assessment st0 subs).user_answers.length = subs.length := by
  intro assessment st0 subs hans hscore hua hfound
  induction subs using List.reverseRecOn with
  | nil =>
    simp [submit_many, hans, hscore, hua]
  | append_singleton l s ih =>
    have hfl : ∀ x ∈ l, (found_question assessment x.question_id).isSome := by
      intro x hx
      exact hfound x (by simp [hx])
    have hfs : (found_question assessment s.question_id).isSome :=
      hfound s (by simp)
    obtain ⟨question, hq⟩ := Option.isSome_iff_exists.mp hfs
    obtain ⟨ih1, ih2, ih3, ih4⟩ := ih hfl
    have hstep : submit_many assessment st0 (l ++ [s]) =
        apply_op assessment (submit_many assessment st0 l) (submit_op s) := by
      unfold submit_many
      rw [List.foldl_append]
      rfl
    set stl := submit_many assessment st0 l with hstl
    -- the first submission targeting an id already answered after `l` is
    -- unchanged by appending `s`
    have hfirst_stable : ∀ q ∈ stl.session.answered_questions,
        first_submission (l ++ [s]) q = first_submission l q := by
      intro q hqmem
      have hqml : q ∈ l.map Submission.question_id := (ih2 q).mp hqmem
      have : (first_submission l q).isSome := by
        unfold first_submission
        rw [List.find?_isSome]
        obtain ⟨x, hxl, hxq⟩ := List.mem_map.mp hqml
        exact ⟨x, hxl, by simp [hxq]⟩
      unfold first_submission at *
      rw [List.find?_append]
      obtain ⟨v, hv⟩ := Option.isSome_iff_exists.mp this
      rw [hv]
      rfl
    have hfilter_stable :
        stl.session.answered_questions.filter
            (first_submission_correct assessment (l ++ [s])) =
          stl.session.answered_questions.filter
            (first_submission_correct assessment l) := by
      apply List.filter_congr
      intro q hqmem
      unfold first_submission_correct
      rw [hfirst_stable q hqmem]
    rw [hstep, apply_op_submit_found assessment stl s question hq]
    by_cases hmem : s.question_id ∈ stl.session.answered_questions
    · -- the id was already answered: session untouched, one record appended
      have hsml : s.question_id ∈ l.map Submission.question_id :=
        (ih2 s.question_id).mp hmem
      refine ⟨by simp [hmem, ih1], ?_, ?_, by simp [hmem, ih4]⟩
      · intro q
        simp only [hmem, if_true]
        rw [ih2 q]
        simp only [List.map_append, List.mem_append, List.map_cons,
          List.map_nil, List.mem_singleton]
        constructor
        · intro h; exact Or.inl h
        · intro h
          rcases h with h | h
          · exact h
          · rw [h]
            exact hsml
      · simp only [hmem, if_true]
        rw [hfilter_stable]
        exact ih3
    · -- a new id: it is appended once and the score moves only if the
      -- (first) submission for it was correct
      have hnotl : ¬ s.question_id ∈ l.map Submission.question_id := by
        intro h
        exact hmem ((ih2 s.question_id).mpr h)
      have hfirst_new : first_submission (l ++ [s]) s.question_id = some s := by
        unfold first_submission
        rw [List.find?_append]
        have hnone : l.find? (fun x => x.question_id == s.question_id) = none := by
          rw [List.find?_eq_none]
          intro x hxl hx
          apply hnotl
          exact List.mem_map.mpr ⟨x, hxl, by simpa using hx⟩
        rw [hnone]
        try simp
      refine ⟨?_, ?_, ?_, by simp [hmem, ih4]⟩
      · simp only [hmem, if_false]
        rw [List.nodup_append]
        refine ⟨ih1, by simp, ?_⟩
        intro a ha hb
        simp at hb
        rw [hb] at ha
        exact hmem ha
      · intro q
        simp only [hmem, if_false]
        simp only [List.mem_append, List.mem_singleton, List.map_append,
          List.map_cons, List.map_nil]
        rw [ih2 q]
      · simp only [hmem, if_false]
        rw [List.filter_append, hfilter_stable]
        have hred : first_submission_correct assessment (l ++ [s])
            s.question_id =
            check_answer_correctness question s.selected_answer_ids := by
          unfold first_submission_correct
          rw [hfirst_new, hq]
        have hlast : (List.filter
            (first_submission_correct assessment (l ++ [s]))
            [s.question_id]).length =
            (if check_answer_correctness question s.selected_answer_ids
             then 1 else 0) := by
          cases hc : check_answer_correctness question s.selected_answer_ids <;>
            simp [List.filter, hred, hc]
        simp only [List.length_append]
        rw [hlast, ih3]

/-- C3 witness: a concrete one-question assessment with the same question
submitted twice (correctly both times); the theorem applies and in
particular yields a score of 1, a single answered id, and two history
records. -/
theorem C3_resubmission_guard_witness :
    (submit_many
      { id := r"a"
        certification_code := r"AZ-900"
        title := r"t"
        questions := [{ id := r"q1"
                        text := r""
                        question_type := QuestionType.multiple_choice
                        answers := [{ id := r"a1", text := r"" }]
                        correct_answer_ids := [r"a1"] }]
        total_questions := 1 }
      { session := { session_id := r"s", assessment_id := r"a" }
        user_answers := [] }
      [{ question_id := r"q1", selected_answer_ids := [r"a1"] },
       { question_id := r"q1", selected_answer_ids := [r"a1"] }]
      ).session.answered_questions.Nodup ∧
    (submit_many
      { id := r"a"
        certification_code := r"AZ-900"
        title := r"t"
        questions := [{ id := r"q1"
                        text := r""
                        question_type := QuestionType.multiple_choice
                        answers := [{ id := r"a1", text := r"" }]
                        correct_answer_ids := [r"a1"] }]
        total_questions := 1 }
      { session := { session_id := r"s", assessment_id := r"a" }
        user_answers := [] }
      [{ question_id := r"q1", selected_answer_ids := [r"a1"] },
       { question_id := r"q1", selected_answer_ids := [r"a1"] }]
      ).user_answers.length = 2 :=
  ⟨(C3_resubmission_guard _ _ _ rfl rfl rfl (by decide)).1,
   (C3_resubmission_guard _ _ _ rfl rfl rfl (by decide)).2.2.2⟩

/-! ## C4 -/

/-- C4: what the code actually does on the claimed input.  With fresh
bookkeeping and a 100-question pool, `_get_available_questions` returns
the whole pool (usage 0 < 0.2), `_select_random_questions` hits the
`difficulty_level` AttributeError, and the except-fallback returns the
ORIGINAL assessment: the result keeps all 100 questions instead of the 50
the specification promises. -/
theorem C4_code_behavior :
    ∀ (assessment : PracticeAssessment) (session_id : String),
      assessment.questions.length = 100 →
      randomize_assessment_for_session assessment session_id [] 50 true =
        assessment ∧
      (randomize_assessment_for_session assessment session_id [] 50 true
        ).questions.length = 100 := by
  intro assessment session_id hlen
  have hmain : randomize_assessment_for_session assessment session_id [] 50 true
      = assessment := by
    rcases hq : assessment.questions with _ | ⟨q, qs⟩
    · rw [hq] at hlen
      simp at hlen
    · rw [hq] at hlen
      simp [randomize_assessment_for_session, get_available_questions,
        select_random_questions, hq, hlen]
  exact ⟨hmain, by rw [hmain, hlen]⟩

/-- C4 witness: a concrete 100-question pool; the randomizer returns it
unchanged, 100 questions and all. -/
theorem C4_code_behavior_witness :
    randomize_assessment_for_session
      { id := r"a"
        certification_code := r"AZ-900"
        title := r"t"
        questions := List.replicate 100
          { id := r"q1"
            text := r""
            question_type := QuestionType.multiple_choice
            answers := []
            correct_answer_ids := [] }
        total_questions := 100 }
      (r"s") [] 50 true =
      { id := r"a"
        certification_code := r"AZ-900"
        title := r"t"
        questions := List.replicate 100
          { id := r"q1"
            text := r""
            question_type := QuestionType.multiple_choice
            answers := []
            correct_answer_ids := [] }
        total_questions := 100 } :=
  (C4_code_behavior _ (r"s") (by simp)).1

/-! ## C5 -/

/-- After a dict write, looking up the written key yields the written
value. -/
theorem lookup_set_status_self (m : List (String × ScrapingStatus))
    (code : String) (v : ScrapingStatus) :
    lookup_status (set_status m code v) code = some v := by
  unfold set_status
  by_cases h : (m.find? (fun p => p.1 == code)).isSome
  · rw [if_pos h]
    induction m with
    | nil => simp at h
    | cons p rest ih =>
      by_cases hp : p.1 == code
      · have hp' : p.1 = code := by simpa using hp
        simp [lookup_status, List.find?, hp, hp']
      · have hfind : ((p :: rest).find? (fun p => p.1 == code)) =
            rest.find? (fun p => p.1 == code) := by
          simp [List.find?, hp]
        rw [hfind] at h
        have := ih h
        simpa [lookup_status, List.find?, hp] using this
  · rw [if_neg h]
    have hnone : m.find? (fun p => p.1 == code) = none :=
      Option.not_isSome_iff_eq_none.mp h
    unfold lookup_status
    rw [List.find?_append, hnone]
    simp

/-- C5 (confirmed): the begin-generation endpoint is single-flight per
certification code.  If the tracked entry is `in_progress` the call
returns the current status and changes nothing (no state change, no new
background job); if the entry is absent or in any other state the call
installs a fresh `in_progress` entry with progress 0, queues exactly one
background job, and a second call made while that entry is still
`in_progress` only observes it — so of the two calls exactly one starts. -/
theorem C5_single_flight :
    ∀ (valid_codes : List String) (st : GenTrackerState) (code : String),
      code ∈ valid_codes →
      (∀ cs, lookup_status st.scraping_status code = some cs →
        cs.status = in_progress_str →
        generate_practice_assessment_route valid_codes st code =
          (.already_in_progress cs, st)) ∧
      ((lookup_status st.scraping_status code = none ∨
        ∃ cs, lookup_status st.scraping_status code = some cs ∧
          ¬ cs.status = in_progress_str) →
        (generate_practice_assessment_route valid_codes st code).1 =
          .started ∧
        lookup_status
          (generate_practice_assessment_route valid_codes st code
            ).2.scraping_status code = some fresh_in_progress_entry ∧
        (generate_practice_assessment_route valid_codes st code
          ).2.background_jobs = st.background_jobs ++ [code] ∧
        generate_practice_assessment_route valid_codes
          (generate_practice_assessment_route valid_codes st code).2 code =
          (.already_in_progress fresh_in_progress_entry,
           (generate_practice_assessment_route valid_codes st code).2)) := by
  intro valid_codes st code hvalid
  constructor
  · intro cs hlk hprog
    unfold generate_practice_assessment_route
    rw [if_neg (by simpa using hvalid), hlk]
    simp [hprog]
  · intro hcase
    have hstart : generate_practice_assessment_route valid_codes st code =
        (GenerateOutcome.started,
         { scraping_status := set_status st.scraping_status code
             fresh_in_progress_entry
           background_jobs := st.background_jobs ++ [code] }) := by
      unfold generate_practice_assessment_route
      rw [if_neg (by simpa using hvalid)]
      rcases hcase with hnone | ⟨cs, hsome, hns⟩
      · rw [hnone]
      · rw [hsome]
        simp [hns]
    refine ⟨by rw [hstart], ?_, by rw [hstart], ?_⟩
    · rw [hstart]
      exact lookup_set_status_self st.scraping_status code
        fresh_in_progress_entry
    · rw [hstart]
      unfold generate_practice_assessment_route
      rw [if_neg (by simpa using hvalid)]
      rw [lookup_set_status_self]
      simp [fresh_in_progress_entry]

/-- C5 witness: from an empty tracker, the first call for AZ-900 starts a
job and the second call only observes the in-progress entry. -/
theorem C5_single_flight_witness :
    (generate_practice_assessment_route [r"AZ-900"]
      { scraping_status := [], background_jobs := [] } (r"AZ-900")).1 =
      .started ∧
    generate_practice_assessment_route [r"AZ-900"]
      (generate_practice_assessment_route [r"AZ-900"]
        { scraping_status := [], background_jobs := [] } (r"AZ-900")).2
      (r"AZ-900") =
      (.already_in_progress fresh_in_progress_entry,
       (generate_practice_assessment_route [r"AZ-900"]
         { scraping_status := [], background_jobs := [] } (r"AZ-900")).2) :=
  ⟨((C5_single_flight [r"AZ-900"]
      { scraping_status := [], background_jobs := [] } (r"AZ-900")
      (by decide)).2 (Or.inl rfl)).1,
   ((C5_single_flight [r"AZ-900"]
      { scraping_status := [], background_jobs := [] } (r"AZ-900")
      (by decide)).2 (Or.inl rfl)).2.2.2⟩

/-! ## C6 -/

/-- Splitting at a separator character is unambiguous when the left parts
avoid the separator. -/
theorem sep_split (sep : Char) :
    ∀ (a₁ a₂ b₁ b₂ : List Char), ¬ sep ∈ a₁ → ¬ sep ∈ a₂ →
      a₁ ++ sep :: b₁ = a₂ ++ sep :: b₂ → a₁ = a₂ ∧ b₁ = b₂ := by
  intro a₁
  induction a₁ with
  | nil =>
    intro a₂ b₁ b₂ _ h₂ h
    cases a₂ with
    | nil =>
      simp at h
      exact ⟨rfl, h⟩
    | cons c t =>
      simp at h
      exfalso
      apply h₂
      rw [← h.1]
      simp
  | cons c t ih =>
    intro a₂ b₁ b₂ h₁ h₂ h
    cases a₂ with
    | nil =>
      simp at h
      exfalso
      apply h₁
      rw [h.1]
      simp
    | cons c' t' =>
      simp at h
      obtain ⟨hc, ht⟩ := h
      have := ih t' b₁ b₂ (fun hm => h₁ (by simp [hm]))
        (fun hm => h₂ (by simp [hm])) ht
      exact ⟨by rw [hc, this.1], this.2⟩

/-- The characters of the joined pre-hash string. -/
theorem generate_cache_key_content_data (text : String)
    (voice_name speech_rate speech_pitch : Option String) :
    (generate_cache_key_content text voice_name speech_rate
      speech_pitch).data =
      text.data ++ '_' :: ((format_optional voice_name).data ++
        '_' :: ((format_optional speech_rate).data ++
          '_' :: (format_optional speech_pitch).data)) := by
  unfold generate_cache_key_content
  simp [String.data_append]

/-- Strings with equal character lists are equal. -/
theorem string_data_inj {a b : String} (h : a.data = b.data) : a = b := by
  cases a
  cases b
  exact congrArg String.mk h

/-- C6 counterexample: the claim as stated is false.  The parameter tuples
(text a_b, voice c) and (text a, voice b_c) differ, yet they produce the
very same pre-hash string a_b_c_None_None, so `_generate_cache_key`
returns the identical key with certainty — not merely up to an improbable
hash collision (shown here with the identity digest; any digest gives the
same key on equal input). -/
theorem C6_counterexample :
    ((r"a_b", some (r"c")) ≠ ((r"a" : String), some (r"b_c"))) ∧
    generate_cache_key_content (r"a_b") (some (r"c")) none none =
      generate_cache_key_content (r"a") (some (r"b_c")) none none ∧
    generate_cache_key id (r"a_b") (some (r"c")) none none =
      generate_cache_key id (r"a") (some (r"b_c")) none none := by
  refine ⟨by decide, by decide, ?_⟩
  unfold generate_cache_key
  simp only [id]
  decide

/-- C6 (amended): the cache key is the digest of the underscore-join of
(text, voice, rate, pitch) with None printed as the string None.  Identical
parameter tuples always give the same key; tuples whose joined strings
differ give different keys whenever the digest does not collide; and when
no component (after None formatting) contains an underscore the join — and
hence the digest input — is injective, so only genuine hash collisions can
identify differing tuples.  (Without that restriction the join itself can
collide exactly, see the counterexample.) -/
theorem C6_cache_key_fingerprint :
    ∀ (md5_hexdigest : String → String) (t₁ t₂ : String)
      (v₁ r₁ p₁ v₂ r₂ p₂ : Option String),
      (t₁ = t₂ → v₁ = v₂ → r₁ = r₂ → p₁ = p₂ →
        generate_cache_key md5_hexdigest t₁ v₁ r₁ p₁ =
          generate_cache_key md5_hexdigest t₂ v₂ r₂ p₂) ∧
      (md5_hexdigest (generate_cache_key_content t₁ v₁ r₁ p₁) ≠
          md5_hexdigest (generate_cache_key_content t₂ v₂ r₂ p₂) →
        generate_cache_key md5_hexdigest t₁ v₁ r₁ p₁ ≠
          generate_cache_key md5_hexdigest t₂ v₂ r₂ p₂) ∧
      (¬ '_' ∈ t₁.data → ¬ '_' ∈ t₂.data →
       ¬ '_' ∈ (format_optional v₁).data →
       ¬ '_' ∈ (format_optional v₂).data →
       ¬ '_' ∈ (format_optional r₁).data →
       ¬ '_' ∈ (format_optional r₂).data →
        generate_cache_key_content t₁ v₁ r₁ p₁ =
          generate_cache_key_content t₂ v₂ r₂ p₂ →
        t₁ = t₂ ∧ format_optional v₁ = format_optional v₂ ∧
          format_optional r₁ = format_optional r₂ ∧
          format_optional p₁ = format_optional p₂) := by
  intro md5_hexdigest t₁ t₂ v₁ r₁ p₁ v₂ r₂ p₂
  refine ⟨?_, ?_, ?_⟩
  · intro h1 h2 h3 h4
    rw [h1, h2, h3, h4]
  · intro h
    exact h
  · intro ht₁ ht₂ hv₁ hv₂ hr₁ hr₂ heq
    have hdata := congrArg String.data heq
    rw [generate_cache_key_content_data, generate_cache_key_content_data]
      at hdata
    obtain ⟨he₁, hrest₁⟩ := sep_split '_' _ _ _ _ ht₁ ht₂ hdata
    obtain ⟨he₂, hrest₂⟩ := sep_split '_' _ _ _ _ hv₁ hv₂ hrest₁
    obtain ⟨he₃, hrest₃⟩ := sep_split '_' _ _ _ _ hr₁ hr₂ hrest₂
    exact ⟨string_data_inj he₁, string_data_inj he₂, string_data_inj he₃,
      string_data_inj hrest₃⟩

/-- C6 witness: determinism and injectivity applied at concrete
underscore-free parameters. -/
theorem C6_cache_key_fingerprint_witness :
    ((r"hello" : String), some (r"en-US-AvaNeural")) =
      ((r"hello" : String), some (r"en-US-AvaNeural")) ∧
    ((r"hello" : String) = r"hello" ∧
      format_optional (some (r"en-US-AvaNeural")) =
        format_optional (some (r"en-US-AvaNeural")) ∧
      format_optional (some (r"+5%")) = format_optional (some (r"+5%")) ∧
      format_optional none = format_optional none) :=
  ⟨rfl,
   (C6_cache_key_fingerprint id (r"hello") (r"hello")
      (some (r"en-US-AvaNeural")) (some (r"+5%")) none
      (some (r"en-US-AvaNeural")) (some (r"+5%")) none).2.2
      (by decide) (by decide) (by decide) (by decide) (by decide) (by decide)
      rfl⟩

/-! ## C7 -/

/-- The deletion loop only ever removes a prefix of the sorted list: its
result is a suffix. -/
theorem cleanup_loop_suffix (max_size_bytes : Nat) :
    ∀ (l : List CacheFile) (total : Nat),
      cleanup_loop max_size_bytes l total <:+ l := by
  intro l
  induction l with
  | nil => intro total; simp [cleanup_loop]
  | cons f rest ih =>
    intro total
    unfold cleanup_loop
    split
    · exact List.suffix_refl _
    · exact (ih (total - f.size)).trans (List.suffix_cons f rest)

/-- Fed its own total, the deletion loop always ends at or below the 80%
low-water mark. -/
theorem cleanup_loop_size (max_size_bytes : Nat) :
    ∀ (l : List CacheFile),
      5 * total_cache_size
        (cleanup_loop max_size_bytes l (total_cache_size l)) ≤
        4 * max_size_bytes := by
  intro l
  induction l with
  | nil => simp [cleanup_loop, total_cache_size]
  | cons f rest ih =>
    unfold cleanup_loop
    split
    · assumption
    · have hsub : total_cache_size (f :: rest) - f.size =
          total_cache_size rest := by
        simp [total_cache_size]
      rw [hsub]
      exact ih

/-- Total size is invariant under permutation. -/
theorem total_cache_size_perm {l l' : List CacheFile} (h : l.Perm l') :
    total_cache_size l = total_cache_size l' :=
  (h.map CacheFile.size).sum_eq

/-- C7 (confirmed): the eviction check does nothing while the total stored
size is within `max_size_bytes`; once it exceeds it, the deleted entries
are an oldest-modified prefix of the mtime order (every deleted entry is
no newer than every retained one, so the retained entries are the
most-recently-modified suffix), and the retained total is at most 0.8 of
the capacity. -/
theorem C7_cache_eviction :
    ∀ (max_size_bytes : Nat) (files : List CacheFile),
      (total_cache_size files ≤ max_size_bytes →
        cleanup_cache_if_needed max_size_bytes files = files) ∧
      (total_cache_size files > max_size_bytes →
        ∃ deleted,
          sort_by_mtime files =
            deleted ++ cleanup_cache_if_needed max_size_bytes files ∧
          (∀ d ∈ deleted,
            ∀ kept ∈ cleanup_cache_if_needed max_size_bytes files,
              d.mtime ≤ kept.mtime) ∧
          5 * total_cache_size
            (cleanup_cache_if_needed max_size_bytes files) ≤
            4 * max_size_bytes ∧
          (sort_by_mtime files).Perm files) := by
  intro max_size_bytes files
  constructor
  · intro h
    unfold cleanup_cache_if_needed
    rw [if_neg (by omega)]
  · intro h
    have hperm : (sort_by_mtime files).Perm files :=
      List.perm_insertionSort mtime_le files
    have hres : cleanup_cache_if_needed max_size_bytes files =
        cleanup_loop max_size_bytes (sort_by_mtime files)
          (total_cache_size files) := by
      unfold cleanup_cache_if_needed
      rw [if_pos h]
    obtain ⟨deleted, hdel⟩ :=
      cleanup_loop_suffix max_size_bytes (sort_by_mtime files)
        (total_cache_size files)
    refine ⟨deleted, ?_, ?_, ?_, hperm⟩
    · rw [hres]
      exact hdel.symm
    · have hsorted : List.Pairwise mtime_le (sort_by_mtime files) :=
        List.sorted_insertionSort mtime_le files
      rw [← hdel] at hsorted
      intro d hd kept hkept
      rw [hres] at hkept
      exact (List.pairwise_append.mp hsorted).2.2 d hd kept hkept
    · rw [hres]
      rw [total_cache_size_perm hperm.symm]
      exact cleanup_loop_size max_size_bytes (sort_by_mtime files)

/-- C7 witness: capacity 10 with files of sizes 6 and 6 (total 12 > 10):
the theorem applies; concretely the older file is evicted and the newer
kept, with total 6 ≤ 8. -/
theorem C7_cache_eviction_witness :
    (total_cache_size [{ name := r"old", size := 6, mtime := 1 },
                       { name := r"new", size := 6, mtime := 2 }] > 10 ∧
     ∃ deleted,
       sort_by_mtime [{ name := r"old", size := 6, mtime := 1 },
                      { name := r"new", size := 6, mtime := 2 }] =
         deleted ++ cleanup_cache_if_needed 10
           [{ name := r"old", size := 6, mtime := 1 },
            { name := r"new", size := 6, mtime := 2 }] ∧
       (∀ d ∈ deleted,
         ∀ kept ∈ cleanup_cache_if_needed 10
             [{ name := r"old", size := 6, mtime := 1 },
              { name := r"new", size := 6, mtime := 2 }],
           d.mtime ≤ kept.mtime) ∧
       5 * total_cache_size (cleanup_cache_if_needed 10
         [{ name := r"old", size := 6, mtime := 1 },
          { name := r"new", size := 6, mtime := 2 }]) ≤ 4 * 10 ∧
       (sort_by_mtime [{ name := r"old", size := 6, mtime := 1 },
                       { name := r"new", size := 6, mtime := 2 }]).Perm
         [{ name := r"old", size := 6, mtime := 1 },
          { name := r"new", size := 6, mtime := 2 }]) ∧
    cleanup_cache_if_needed 10
      [{ name := r"old", size := 6, mtime := 1 },
       { name := r"new", size := 6, mtime := 2 }] =
      [{ name := r"new", size := 6, mtime := 2 }] :=
  ⟨⟨by decide,
    (C7_cache_eviction 10
      [{ name := r"old", size := 6, mtime := 1 },
       { name := r"new", size := 6, mtime := 2 }]).2 (by decide)⟩,
   by decide⟩

/-! ## C8 -/

/-- Modelled from the spec (section 4.1 pacing algorithm): the delay as one
clamped sum — base 3, plus a reading contribution of
`max 3 (chars / (200 * 5))` when a nonempty explanation exists, plus 2 when
incorrect, plus 3 for case-study or drag-drop, capped at 15. -/
def spec_pacing_delay (question : Question) (is_correct : Bool) : Nat :=
  min 15
    (3 +
      (match question.explanation with
       | some e => if e.length = 0 then 0 else max 3 (e.length / (200 * 5))
       | none => 0) +
      (if is_correct then 0 else 2) +
      (if question.question_type ∈
          [QuestionType.case_study, QuestionType.drag_drop]
       then 3 else 0))

/-- The sequential accumulation in `_calculate_auto_advance_delay` equals
the one-formula version of the spec. -/
theorem delay_eq_spec (question : Question) (is_correct : Bool) :
    calculate_auto_advance_delay question is_correct =
      spec_pacing_delay question is_correct := by
  unfold calculate_auto_advance_delay spec_pacing_delay
  rcases question.explanation with _ | e <;> cases is_correct <;>
    (simp only []; split_ifs <;> omega)

/-- C8 counterexample: the specific value the claim asserts for the ceiling
example is wrong.  For an incorrect case-study answer with a 1000-character
explanation the computed delay is 3 + max(3, 1000/1000) + 2 + 3 = 11, not
15: the clamp is not reached. -/
theorem C8_counterexample :
    calculate_auto_advance_delay
      { id := r"q1"
        text := r""
        question_type := QuestionType.case_study
        answers := []
        correct_answer_ids := []
        explanation := some (String.mk (List.replicate 1000 'a')) }
      false = 11 ∧ (11 : Nat) ≠ 15 := by
  constructor
  · rw [delay_eq_spec]
    unfold spec_pacing_delay
    have hlen : (String.mk (List.replicate 1000 'a')).length = 1000 :=
      List.length_replicate 1000 'a'
    dsimp only []
    rw [hlen]
    norm_num
  · decide

/-- C8 (amended): the auto-advance delay is the clamped sum — base 3
seconds, plus a reading contribution of at least 3 seconds computed as
explanation characters divided by 1000 when a nonempty explanation exists,
plus 2 if incorrect, plus 3 for case-study or drag-drop, capped at 15 —
so it always lies between 3 and 15 and equals 3 for a correct answer with
no explanation on other question types.  For an incorrect case-study
answer the 1000-character explanation of the claim gives 11; the ceiling
is only reached with a longer explanation, e.g. 10000 characters. -/
theorem C8_auto_advance_delay :
    ∀ (question : Question) (is_correct : Bool),
      calculate_auto_advance_delay question is_correct =
        spec_pacing_delay question is_correct ∧
      3 ≤ calculate_auto_advance_delay question is_correct ∧
      calculate_auto_advance_delay question is_correct ≤ 15 ∧
      (question.explanation = none → is_correct = true →
        ¬ question.question_type ∈
          [QuestionType.case_study, QuestionType.drag_drop] →
        calculate_auto_advance_delay question is_correct = 3) ∧
      calculate_auto_advance_delay
        { id := r"q1"
          text := r""
          question_type := QuestionType.case_study
          answers := []
          correct_answer_ids := []
          explanation := some (String.mk (List.replicate 10000 'a')) }
        false = 15 := by
  intro question is_correct
  refine ⟨delay_eq_spec question is_correct, ?_, ?_, ?_, ?_⟩
  · rw [delay_eq_spec]
    unfold spec_pacing_delay
    rcases question.explanation with _ | e <;> split_ifs <;> omega
  · rw [delay_eq_spec]
    unfold spec_pacing_delay
    exact Nat.min_le_left _ _
  · intro hexp hcor htype
    rw [delay_eq_spec]
    unfold spec_pacing_delay
    rw [hexp, hcor]
    simp [htype]
  · rw [delay_eq_spec]
    unfold spec_pacing_delay
    have hlen : (String.mk (List.replicate 10000 'a')).length = 10000 :=
      List.length_replicate 10000 'a'
    dsimp only []
    rw [hlen]
    norm_num

/-- C8 witness: the theorem applied at a correct, explanation-free
multiple-choice question gives the 3-second floor. -/
theorem C8_auto_advance_delay_witness :
    calculate_auto_advance_delay
      { id := r"q1"
        text := r""
        question_type := QuestionType.multiple_choice
        answers := []
        correct_answer_ids := [] }
      true = 3 :=
  (C8_auto_advance_delay
    { id := r"q1"
      text := r""
      question_type := QuestionType.multiple_choice
      answers := []
      correct_answer_ids := [] }
    true).2.2.2.1 rfl rfl (by decide)

/-! ## C9 -/

/-- C9: what the code actually does.  `_shuffle_answer_options` evaluates
`question.difficulty_level` (and would then evaluate `question.category`
and `question.tags`) while rebuilding each question; none of these exist on
the `Question` model, so the first question raises `AttributeError` and no
shuffled assessment is ever produced — the randomizer then falls back to
the original, unshuffled assessment. -/
theorem C9_code_behavior :
    ∀ (questions : List Question), ¬ questions = [] →
      shuffle_answer_options questions =
        .error attribute_error_difficulty_level := by
  intro questions h
  cases questions with
  | nil => exact absurd rfl h
  | cons q rest => rfl

/-- C9 witness: the failure at a concrete one-question list. -/
theorem C9_code_behavior_witness :
    shuffle_answer_options
      [{ id := r"q1"
         text := r""
         question_type := QuestionType.multiple_choice
         answers := [{ id := r"a1", text := r"" }]
         correct_answer_ids := [r"a1"] }] =
      .error attribute_error_difficulty_level :=
  C9_code_behavior _ (by decide)

/-! ## C10 -/

/-- C10 (confirmed): `submit_answer` never reads
`current_question_index` for grading or bookkeeping.  For any question id
present anywhere in the assessment the submission succeeds, and the grade,
the answered-ids list, the score, and the appended history record are
identical no matter what the current index is — submitting a question at
any position behaves exactly as submitting the current one. -/
theorem C10_submit_position_independent :
    ∀ (assessment : PracticeAssessment) (st : AgentState) (i j : Nat)
      (question_id : String) (sel : List String) (t : Option Nat),
      question_id ∈ assessment.questions.map Question.id →
      ((submit_answer assessment
          { st with session :=
              { st.session with current_question_index := i } }
          question_id sel t).isOk = true) ∧
      ((submit_answer assessment
          { st with session :=
              { st.session with current_question_index := i } }
          question_id sel t).map
          (fun r => (r.1.is_correct, r.2.session.answered_questions,
                     r.2.session.score, r.2.user_answers)) =
        (submit_answer assessment
          { st with session :=
              { st.session with current_question_index := j } }
          question_id sel t).map
          (fun r => (r.1.is_correct, r.2.session.answered_questions,
                     r.2.session.score, r.2.user_answers))) := by
  intro assessment st i j question_id sel t hmem
  have hfind : ∃ question,
      assessment.questions.find? (fun q => q.id == question_id) =
        some question := by
    rw [← Option.isSome_iff_exists, List.find?_isSome]
    obtain ⟨q, hq, hid⟩ := List.mem_map.mp hmem
    exact ⟨q, hq, by simp [hid]⟩
  obtain ⟨question, hq⟩ := hfind
  constructor
  · simp [submit_answer, hq, Except.isOk, Except.toBool]
  · simp only [submit_answer, hq, Except.map]
    split_ifs <;> rfl

/-- C10 witness: submitting the second question of a two-question
assessment while the index still points at the first question succeeds and
yields the same grade and bookkeeping as with the index at its own
position. -/
theorem C10_submit_position_independent_witness :
    (submit_answer
      { id := r"a"
        certification_code := r"AZ-900"
        title := r"t"
        questions := [{ id := r"q1"
                        text := r""
                        question_type := QuestionType.multiple_choice
                        answers := [{ id := r"a1", text := r"" }]
                        correct_answer_ids := [r"a1"] },
                      { id := r"q2"
                        text := r""
                        question_type := QuestionType.multiple_choice
                        answers := [{ id := r"b1", text := r"" }]
                        correct_answer_ids := [r"b1"] }]
        total_questions := 2 }
      { session := { session_id := r"s", assessment_id := r"a",
                     current_question_index := 0 }
        user_answers := [] }
      (r"q2") [r"b1"] none).isOk = true :=
  (C10_submit_position_independent
    { id := r"a"
      certification_code := r"AZ-900"
      title := r"t"
      questions := [{ id := r"q1"
                      text := r""
                      question_type := QuestionType.multiple_choice
                      answers := [{ id := r"a1", text := r"" }]
                      correct_answer_ids := [r"a1"] },
                    { id := r"q2"
                      text := r""
                      question_type := QuestionType.multiple_choice
                      answers := [{ id := r"b1", text := r"" }]
                      correct_answer_ids := [r"b1"] }]
      total_questions := 2 }
    { session := { session_id := r"s", assessment_id := r"a" }
      user_answers := [] }
    0 1 (r"q2") [r"b1"] none (by decide)).1
